import Mathlib

/-!
Shallow embedding of the Efficiency-Tracker application (src/app.py):
the authentication / device-trust layer, the task and syllabus stores and
the aggregation logic, with theorems settling the specification claims.

Conventions of the embedding:
* the sqlite tables become Lean lists of records; an INSERT is an append,
  an UPDATE is a `List.map` guarded on the WHERE clause, a DELETE is a
  `List.filter` on the negated WHERE clause;
* timestamps (ISO-8601 strings in the database) become `Int`, which keeps
  exactly the order structure the code uses;
* `st.session_state` (a dictionary whose keys may be absent) becomes a
  structure of `Option` fields, `none` meaning "key absent";
* `hashlib.sha256(...).hexdigest()` is an external primitive: the gate
  definitions take the hash function as a parameter;
* `st.secrets["password"]["hash"]` may raise: it is an `Option String`,
  `none` meaning the lookup raises.
-/

namespace Tracker

/-- Client information extracted from the request headers
(`get_client_info` in src/app.py). -/
structure ClientInfo where
  ip_address : String
  user_agent : String
deriving DecidableEq, Repr

/-- One row of the `authorized_devices` table. -/
structure DeviceRec where
  id : Nat
  device_id : String
  device_name : String
  ip_address : String
  user_agent : String
  first_login : Int
  last_login : Int
  is_approved : Bool
  session_token : Option String
  token_expiry : Option Int
deriving DecidableEq, Repr

/-- One row of the `login_attempts` table. -/
structure AttemptRow where
  device_id : String
  ip_address : String
  timestamp : Int
  status : String
  user_agent : String
deriving DecidableEq, Repr

/-- The authentication database `study_tracker.db`: the two tables created
by `init_auth_database`, plus the next AUTOINCREMENT id for
`authorized_devices`. -/
structure AuthDB where
  devices : List DeviceRec
  attempts : List AttemptRow
  nextId : Nat
deriving DecidableEq, Repr

/-- Python truthiness of the token string returned by
`check_device_approval`: `None` and the empty string are falsy. -/
def tokenTruthy : Option String → Bool
  | none => false
  | some s => !(s == "")

/-- Thirty days, the token lifetime `timedelta(days=30)`, in seconds. -/
def thirty_days : Int := 30 * 24 * 60 * 60

/-- `log_login_attempt(device_id, client_info, status)`: INSERT one row
into `login_attempts`. -/
def log_login_attempt (db : AuthDB) (device_id : String) (ci : ClientInfo)
    (now : Int) (status : String) : AuthDB :=
  { db with attempts :=
      db.attempts ++ [⟨device_id, ci.ip_address, now, status, ci.user_agent⟩] }

/-- `save_device_session(device_id, client_info, approved)`: upsert into
`authorized_devices`.  The fresh session token `tok` and the clock reading
`now` are passed in as environment inputs.  On the update branch only
`last_login`, `session_token`, `token_expiry`, `ip_address`, `user_agent`
are rewritten (the SQL UPDATE lists exactly these columns); on the insert
branch `is_approved` is set from the `approved` argument and
`first_login`/`last_login` take the CURRENT_TIMESTAMP default. -/
def save_device_session (db : AuthDB) (device_id : String) (ci : ClientInfo)
    (approved : Bool) (now : Int) (tok : String) : AuthDB × String :=
  let token_expiry := now + thirty_days
  match db.devices.find? (fun r => r.device_id == device_id) with
  | some _ =>
      ({ db with devices := db.devices.map (fun r =>
          if r.device_id == device_id then
            { r with last_login := now, session_token := some tok,
                     token_expiry := some token_expiry,
                     ip_address := ci.ip_address, user_agent := ci.user_agent }
          else r) }, tok)
  | none =>
      let device_name := "Device " ++ ci.ip_address.take 15
      ({ db with
          devices := db.devices ++
            [⟨db.nextId, device_id, device_name, ci.ip_address, ci.user_agent,
              now, now, approved, some tok, some token_expiry⟩],
          nextId := db.nextId + 1 }, tok)

/-- `check_device_approval(device_id)`: look the device up; if a row exists
and its expiry is non-null and strictly in the future, return the stored
approval flag and token, else `(False, None)`. -/
def check_device_approval (db : AuthDB) (device_id : String) (now : Int) :
    Bool × Option String :=
  match db.devices.find? (fun r => r.device_id == device_id) with
  | some r =>
      match r.token_expiry with
      | some e => if now < e then (r.is_approved, r.session_token) else (false, none)
      | none => (false, none)
  | none => (false, none)

/-- `approve_device(device_id)`: UPDATE `is_approved = 1` WHERE matching. -/
def approve_device (db : AuthDB) (device_id : String) : AuthDB :=
  { db with devices := db.devices.map (fun r =>
      if r.device_id == device_id then { r with is_approved := true } else r) }

/-- `revoke_device(device_id)`: UPDATE `is_approved = 0` WHERE matching. -/
def revoke_device (db : AuthDB) (device_id : String) : AuthDB :=
  { db with devices := db.devices.map (fun r =>
      if r.device_id == device_id then { r with is_approved := false } else r) }

/-- `delete_device(device_id)`: DELETE the device row AND all
`login_attempts` rows carrying that device identifier. -/
def delete_device (db : AuthDB) (device_id : String) : AuthDB :=
  { db with
      devices := db.devices.filter (fun r => !(r.device_id == device_id)),
      attempts := db.attempts.filter (fun a => !(a.device_id == device_id)) }

/-- One row of the admin login-history view (`get_login_history`): the
LEFT JOIN against `authorized_devices` makes the device name nullable. -/
structure HistoryRow where
  timestamp : Int
  device_id : String
  ip_address : String
  status : String
  device_name : Option String
deriving DecidableEq, Repr

/-- `get_login_history(limit=50)`: LEFT JOIN on the device identifier
(`device_id` is UNIQUE in `authorized_devices`, so at most one row
matches), ORDER BY timestamp DESC, LIMIT. -/
def get_login_history (db : AuthDB) (limit : Nat := 50) : List HistoryRow :=
  ((db.attempts.insertionSort (fun a b => a.timestamp ≥ b.timestamp)).map
    (fun a =>
      { timestamp := a.timestamp, device_id := a.device_id,
        ip_address := a.ip_address, status := a.status,
        device_name :=
          (db.devices.find? (fun r => r.device_id == a.device_id)).map
            (fun r => r.device_name) })).take limit

/-- The framework session dictionary `st.session_state`; `none` means the
key is absent. -/
structure SessionState where
  device_id : Option String
  authenticated : Option Bool
  password_correct : Option Bool
  session_token : Option String
  remember_device : Option Bool
  password : Option String
deriving DecidableEq, Repr

/-- Calls into the three audited auth helpers, recorded as an explicit
trace so that "this path never calls f" is a statement about the code. -/
inductive AuthCall where
  | checkApproval (device_id : String)
  | saveSession (device_id : String) (approved : Bool)
  | logAttempt (device_id status : String)
deriving DecidableEq, Repr

/-- The reference hash used by the FIRST `check_password` definition's
`password_entered`: the configured secret when reading it succeeds, else
the hash of the hardcoded fallback `"jee2025"`. -/
def correct_hash_v1 (hash : String → String) (secrets : Option String) : String :=
  match secrets with
  | some ch => ch
  | none => hash "jee2025"

/-- `password_entered` of the FIRST `check_password` definition
(src/app.py lines 172-198): compare hashes; on success optionally persist
the device (the `remember_device` key defaults to True), set the session
flags, log "Login Success" and drop the password key; on failure log
"Login Failed - Wrong Password". -/
def password_entered_v1 (hash : String → String) (secrets : Option String)
    (device_id : String) (ci : ClientInfo) (now : Int) (tok : String)
    (ss : SessionState) (db : AuthDB) : SessionState × AuthDB × List AuthCall :=
  let entered := ss.password.getD ""
  let hashed_input := hash entered
  if hashed_input == correct_hash_v1 hash secrets then
    let remember := ss.remember_device.getD true
    let step1 : SessionState × AuthDB × List AuthCall :=
      if remember then
        let (db1, t) := save_device_session db device_id ci true now tok
        ({ ss with session_token := some t }, db1,
         [AuthCall.saveSession device_id true])
      else (ss, db, [])
    let ss1 := step1.1
    let db1 := step1.2.1
    let ss2 := { ss1 with
                 password_correct := some true, authenticated := some true,
                 device_id := some device_id, password := none }
    (ss2, log_login_attempt db1 device_id ci now "Login Success",
     step1.2.2 ++ [AuthCall.logAttempt device_id "Login Success"])
  else
    ({ ss with password_correct := some false },
     log_login_attempt db device_id ci now "Login Failed - Wrong Password",
     [AuthCall.logAttempt device_id "Login Failed - Wrong Password"])

/-- `password_entered` of the SECOND `check_password` definition
(src/app.py lines 241-261).  The whole comparison sits inside the `try`,
so when reading the secret raises, the fallback compares the RAW entered
password against `"jee2025"`.  No auth helper is ever called. -/
def password_entered_v2 (hash : String → String) (secrets : Option String)
    (_device_id : String) (_ci : ClientInfo) (_now : Int) (_tok : String)
    (ss : SessionState) (db : AuthDB) : SessionState × AuthDB × List AuthCall :=
  let entered := ss.password.getD ""
  let hashed_input := hash entered
  match secrets with
  | some correct_hash =>
      if hashed_input == correct_hash then
        ({ ss with password_correct := some true, password := none }, db, [])
      else
        ({ ss with password_correct := some false }, db, [])
  | none =>
      if entered == "jee2025" then
        ({ ss with password_correct := some true, password := none }, db, [])
      else
        ({ ss with password_correct := some false }, db, [])

/-- Main body of the FIRST `check_password` definition (src/app.py lines
146-234): session shortcut, then the device-trust auto-login check, then
the `password_correct` flag, else render the form and return False.
`fresh` is the uuid that `get_device_fingerprint` would mint when the
session has no device id yet. -/
def check_password_v1_body (fresh : String) (ci : ClientInfo) (now : Int)
    (ss : SessionState) (db : AuthDB) :
    Bool × SessionState × AuthDB × List AuthCall :=
  let device_id := ss.device_id.getD fresh
  let ss0 := { ss with device_id := some device_id }
  if ss0.authenticated.getD false then (true, ss0, db, [])
  else
    let res := check_device_approval db device_id now
    if res.1 && tokenTruthy res.2 then
      (true,
       { ss0 with authenticated := some true, session_token := res.2 },
       log_login_attempt db device_id ci now "Auto-login Success",
       [AuthCall.checkApproval device_id,
        AuthCall.logAttempt device_id "Auto-login Success"])
    else if ss0.password_correct.getD false then
      (true, ss0, db, [AuthCall.checkApproval device_id])
    else
      (false, ss0, db, [AuthCall.checkApproval device_id])

/-- Main body of the SECOND `check_password` definition (src/app.py lines
238-286): only the `password_correct` flag is consulted; no database and
no auth helper is touched on any path. -/
def check_password_v2_body (_fresh : String) (_ci : ClientInfo) (_now : Int)
    (ss : SessionState) (db : AuthDB) :
    Bool × SessionState × AuthDB × List AuthCall :=
  if ss.password_correct.getD false then (true, ss, db, [])
  else (false, ss, db, [])

/-- The two top-level gate definitions, in source order. -/
inductive GateVersion where
  | v1
  | v2
deriving DecidableEq, Repr

/-- The module's sequence of `def check_password` bindings, in the order
the statements execute (src/app.py lines 146 and 238). -/
def gateBindings : List (String × GateVersion) :=
  [("check_password", GateVersion.v1), ("check_password", GateVersion.v2)]

/-- Python name resolution after the module body ran: the LAST binding of
a name wins. -/
def resolveGate (name : String) : Option GateVersion :=
  ((gateBindings.filter (fun b => b.1 == name)).getLast?).map (fun b => b.2)

/-- Dispatch the gate body through a version tag. -/
def run_gate_body (v : GateVersion) (fresh : String) (ci : ClientInfo)
    (now : Int) (ss : SessionState) (db : AuthDB) :
    Bool × SessionState × AuthDB × List AuthCall :=
  match v with
  | GateVersion.v1 => check_password_v1_body fresh ci now ss db
  | GateVersion.v2 => check_password_v2_body fresh ci now ss db

/-- Dispatch the `password_entered` callback through a version tag. -/
def run_password_entered (v : GateVersion) (hash : String → String)
    (secrets : Option String) (device_id : String) (ci : ClientInfo)
    (now : Int) (tok : String) (ss : SessionState) (db : AuthDB) :
    SessionState × AuthDB × List AuthCall :=
  match v with
  | GateVersion.v1 => password_entered_v1 hash secrets device_id ci now tok ss db
  | GateVersion.v2 => password_entered_v2 hash secrets device_id ci now tok ss db

/-- The gate version actually bound to `check_password` at the call site
on src/app.py line 289. -/
def effectiveGate : GateVersion :=
  (resolveGate "check_password").getD GateVersion.v1

/-- One row of the `syllabus_tracker` table. -/
structure SyllabusRow where
  phase : String
  subject : String
  chapter : String
  status : String
deriving DecidableEq, Repr

/-- The fixed seeded catalog `syllabus_data` from `populate_syllabus`
(src/app.py lines 894-947), verbatim. -/
def syllabus_data : List (String × String × String) :=
  [("Phase 1 (Wk 1-2)", "Physics", "Units & Dimensions, Kinematics, NLM, Friction"),
   ("Phase 1 (Wk 1-2)", "Physics", "Work Energy Power, Circular Motion (Basics)"),
   ("Phase 1 (Wk 1-2)", "Chemistry", "Mole Concept, States of Matter, Thermodynamics"),
   ("Phase 1 (Wk 1-2)", "Chemistry", "Chemical Equilibrium, Ionic Equilibrium"),
   ("Phase 1 (Wk 1-2)", "Maths", "Quadratic Eq, Complex Numbers, Seq & Series"),
   ("Phase 1 (Wk 1-2)", "Maths", "Polynomials, Matrices, Determinants"),
   ("Phase 1 (Wk 3-4)", "Physics", "COM, Rotational (Basics), Gravitation, SHM"),
   ("Phase 1 (Wk 3-4)", "Physics", "Waves, Doppler, Fluid Basics"),
   ("Phase 1 (Wk 3-4)", "Chemistry", "GOC, Isomerism, Hydrocarbons"),
   ("Phase 1 (Wk 3-4)", "Chemistry", "Alkyl Halides, Alcohols, Phenols, Ethers"),
   ("Phase 1 (Wk 3-4)", "Maths", "Trigonometry, PnC, Probability Basics"),
   ("Phase 1 (Wk 3-4)", "Maths", "Straight Lines, Circles, Parabola (Formulas only)"),
   ("Phase 1 (Wk 5)", "Physics", "Electrostatics (Field/Potential), Capacitance"),
   ("Phase 1 (Wk 5)", "Physics", "Current Electricity (Kirchhoff Basics)"),
   ("Phase 1 (Wk 5)", "Chemistry", "Aldehydes, Ketones, Carboxylic Acids"),
   ("Phase 1 (Wk 5)", "Chemistry", "Amines, Biomolecules, Polymers"),
   ("Phase 1 (Wk 5)", "Maths", "Vectors, 3D Geometry"),
   ("Phase 1 (Wk 6)", "Physics", "Magnetism, Moving Charges, EMI, AC"),
   ("Phase 1 (Wk 6)", "Chemistry", "Periodic Table, Bonding"),
   ("Phase 1 (Wk 6)", "Chemistry", "s-Block, p-Block (Imp NCERT lines)"),
   ("Phase 1 (Wk 6)", "Maths", "Calculus Base: Limits, Derivatives"),
   ("Phase 1 (Wk 7-8)", "Physics", "Ray Optics, Optical Instruments"),
   ("Phase 1 (Wk 7-8)", "Physics", "Modern Physics, Semiconductors"),
   ("Phase 1 (Wk 7-8)", "Chemistry", "Coordination Compounds, d&f Block"),
   ("Phase 1 (Wk 7-8)", "Chemistry", "Hydrogen, Environmental Chem, Full NCERT Rev"),
   ("Phase 1 (Wk 7-8)", "Maths", "Calculus: AOD, Integration, Area Under Curve"),
   ("Phase 2 (Days 61-80)", "Chemistry", "Full NCERT Rev + Exemplar + 5 PYQ Papers"),
   ("Phase 2 (Days 61-80)", "Physics", "7 Days Pure PYQs (Mech + Modern + Optics)"),
   ("Phase 2 (Days 61-80)", "Maths", "PYQ Focus (Algebra + Coordinate + Calculus)"),
   ("Phase 2 (Days 61-80)", "Mock Tests", "Mini Mocks (Target 100-120 Marks)"),
   ("Phase 3 (Days 81-110)", "Mocks", "15 Full Mocks (1 every 2 days)"),
   ("Phase 3 (Days 81-110)", "Analysis", "Error Notebook (Concept vs Silly Mistakes)"),
   ("Phase 3 (Days 81-110)", "Target", "Score Goal: 130 -> 145 -> 160+"),
   ("Phase 4 (Days 111-120)", "Revision", "All Formula Rev + NCERT Scan"),
   ("Phase 4 (Days 111-120)", "Mocks", "6 Mini Mocks (Accuracy Focus)")]

/-- The rows `populate_syllabus` inserts: the catalog triples with the
column default status `'Not Started'`. -/
def seed_rows : List SyllabusRow :=
  syllabus_data.map (fun t =>
    { phase := t.1, subject := t.2.1, chapter := t.2.2, status := "Not Started" })

/-- `init_database`: CREATE TABLE IF NOT EXISTS, then seed the catalog
only when `SELECT COUNT(*) FROM syllabus_tracker` is zero. -/
def init_database (syllabus_tracker : List SyllabusRow) : List SyllabusRow :=
  if syllabus_tracker.length == 0 then syllabus_tracker ++ seed_rows
  else syllabus_tracker

/-- The seeded table after the user changed statuses arbitrarily through
`update_syllabus_status` (which rewrites only the `status` column): row
`i` of the catalog carries status `f i`. -/
def seeded_with_statuses (f : Nat → String) : List SyllabusRow :=
  syllabus_data.enum.map (fun p =>
    { phase := p.2.1, subject := p.2.2.1, chapter := p.2.2.2, status := f p.1 })

/-- One row of the grouped statistics `get_completion_stats` returns:
per-phase totals and completed counts. -/
structure PhaseStat where
  phase : String
  total : Nat
  completed : Nat
deriving DecidableEq, Repr

/-- `get_completion_stats`: GROUP BY phase with COUNT(*) and the
conditional SUM over `status = 'Completed'`. -/
def get_completion_stats (rows : List SyllabusRow) : List PhaseStat :=
  ((rows.map (fun r => r.phase)).dedup).map (fun p =>
    { phase := p,
      total := (rows.filter (fun r => r.phase == p)).length,
      completed :=
        (rows.filter (fun r => r.phase == p && r.status == "Completed")).length })

/-- `stats_df[stats_df['phase'] == p]['completed'].sum()`. -/
def phase_completed_sum (stats : List PhaseStat) (p : String) : Nat :=
  ((stats.filter (fun s => s.phase == p)).map (fun s => s.completed)).sum

/-- `stats_df[stats_df['phase'] == p]['total'].sum()`. -/
def phase_total_sum (stats : List PhaseStat) (p : String) : Nat :=
  ((stats.filter (fun s => s.phase == p)).map (fun s => s.total)).sum

/-- `calculate_projected_score(stats_df)` (src/app.py lines 1067-1095).
The second component is the overall completion percentage (the code
formats it as a one-decimal string; the embedding keeps the exact
rational).  The Python literal `0.7` becomes the exact `7/10`. -/
def calculate_projected_score (stats : List PhaseStat) : String × Rat :=
  let total_items : Nat := (stats.map (fun s => s.total)).sum
  let completed_items : Nat := (stats.map (fun s => s.completed)).sum
  if total_items == 0 then ("Start your journey!", 0)
  else
    let overall_percentage : Rat := (completed_items : Rat) / (total_items : Rat) * 100
    if (phase_completed_sum stats "D" : Rat) > (phase_total_sum stats "D" : Rat) * (7 / 10) then
      ("Projected: 120-150 Marks", overall_percentage)
    else if (phase_completed_sum stats "C" : Rat) > (phase_total_sum stats "C" : Rat) * (7 / 10) then
      ("Projected: 95-125 Marks", overall_percentage)
    else if (phase_completed_sum stats "B" : Rat) > (phase_total_sum stats "B" : Rat) * (7 / 10) then
      ("Projected: 80-100 Marks", overall_percentage)
    else if (phase_completed_sum stats "A" : Rat) > (phase_total_sum stats "A" : Rat) * (7 / 10) then
      ("Projected: 50-70 Marks", overall_percentage)
    else
      ("Projected: 20-50 Marks", overall_percentage)

/-- One row of the `daily_tasks` table; `is_completed` is the 0/1 integer
column, modelled as `Bool`. -/
structure DailyTask where
  id : Nat
  task_name : String
  date : Int
  is_completed : Bool
deriving DecidableEq, Repr

/-- `add_daily_task`: INSERT with `is_completed = 0`. -/
def add_daily_task (tasks : List DailyTask) (nextId : Nat)
    (task_name : String) (task_date : Int) : List DailyTask :=
  tasks ++ [⟨nextId, task_name, task_date, false⟩]

/-- `update_task_status`: UPDATE `is_completed` WHERE id matches. -/
def update_task_status (tasks : List DailyTask) (task_id : Nat)
    (is_completed : Bool) : List DailyTask :=
  tasks.map (fun t =>
    if t.id == task_id then { t with is_completed := is_completed } else t)

/-- `delete_task`: DELETE WHERE id matches. -/
def delete_task (tasks : List DailyTask) (task_id : Nat) : List DailyTask :=
  tasks.filter (fun t => !(t.id == task_id))

/-- Round `num / den` to the nearest integer, halves away from zero (the
behaviour of sqlite ROUND on nonnegative arguments). -/
def roundTenths (num den : Nat) : Nat := (2 * num + den) / (2 * den)

/-- One row of the `get_efficiency_history` result.  `efficiency_tenths`
is `ROUND(completed / total * 100, 1)` scaled by ten, so the one-decimal
percentage is represented exactly as an integer number of tenths. -/
structure EffRow where
  date : Int
  total_tasks : Nat
  completed_tasks : Nat
  efficiency_tenths : Nat
deriving DecidableEq, Repr

/-- `get_efficiency_history()` (src/app.py lines 440-464): GROUP BY date
over `daily_tasks`, one row per distinct date, COUNT(*), SUM(is_completed)
and the rounded percentage, ORDER BY date DESC. -/
def get_efficiency_history (tasks : List DailyTask) : List EffRow :=
  (((tasks.map (fun t => t.date)).dedup).insertionSort (fun a b => a ≥ b)).map
    (fun d =>
      let grp := tasks.filter (fun t => t.date == d)
      let completed := (grp.filter (fun t => t.is_completed)).length
      { date := d, total_tasks := grp.length, completed_tasks := completed,
        efficiency_tenths := roundTenths (completed * 1000) grp.length })

/-- `calculate_streak(history_df)` (src/app.py lines 614-625): walk the
history from the front, counting while `efficiency_percent >= 50`, and
stop at the first row below the threshold. -/
def calculate_streak : List EffRow → Nat
  | [] => 0
  | r :: rest =>
      if 500 ≤ r.efficiency_tenths then calculate_streak rest + 1 else 0

/-- Number of `authorized_devices` rows carrying a given device
identifier (`SELECT COUNT(*) ... WHERE device_id = ?`). -/
def device_count (db : AuthDB) (d : String) : Nat :=
  (db.devices.filter (fun r => r.device_id == d)).length

/-!  ## Theorems settling the claims -/

theorem countP_map_of_preserved {α : Type} (f : α → α) (p : α → Bool)
    (l : List α) (h : ∀ a, p (f a) = p a) :
    (l.map f).countP p = l.countP p := by
  rw [List.countP_map]
  exact List.countP_congr (fun a _ => by simp [Function.comp, h a])

theorem device_count_eq_countP (db : AuthDB) (d : String) :
    device_count db d = db.devices.countP (fun r => r.device_id == d) := by
  rw [device_count, List.countP_eq_length_filter]

/-- C7: `calculate_streak`, applied to a history ordered most-recent-date
first, counts consecutive rows from the start while the efficiency
percentage is at least 50 and stops at the first row below the threshold
or at the end; on the empty history it returns 0; on [90%, 70%, 40%, 95%]
it returns 2 and on [30%, 95%] it returns 0. -/
theorem claim_C7_streak_counts_leading_rows_at_least_fifty :
    (∀ h : List EffRow,
      calculate_streak h =
        (h.takeWhile (fun r => decide (500 ≤ r.efficiency_tenths))).length)
    ∧ calculate_streak [] = 0
    ∧ calculate_streak
        [⟨3, 10, 9, 900⟩, ⟨2, 10, 7, 700⟩, ⟨1, 10, 4, 400⟩, ⟨0, 20, 19, 950⟩] = 2
    ∧ calculate_streak [⟨1, 10, 3, 300⟩, ⟨0, 20, 19, 950⟩] = 0 := by
  refine ⟨?_, rfl, rfl, rfl⟩
  intro h
  induction h with
  | nil => rfl
  | cons r rest ih =>
      by_cases hr : 500 ≤ r.efficiency_tenths
      · simp [calculate_streak, List.takeWhile_cons, hr, ih]
      · simp [calculate_streak, List.takeWhile_cons, hr]

/-- C10: syllabus seeding is idempotent.  `init_database` inserts the
fixed catalog only when the table is empty, so iterating the initializer
never duplicates the catalog: starting from an empty table the result is
exactly one copy of the 35-row catalog, and a second call changes
nothing. -/
theorem claim_C10_seeding_idempotent :
    (∀ s : List SyllabusRow, init_database (init_database s) = init_database s)
    ∧ init_database [] = seed_rows
    ∧ (init_database (init_database [])).length = 35
    ∧ seed_rows.length = 35 := by
  refine ⟨?_, rfl, rfl, rfl⟩
  intro s
  cases s with
  | nil => rfl
  | cons a t => rfl

/-- C4: `check_device_approval` returns approved = false when no record
exists, or when the stored expiry is null or at or before the current
time — even if the stored approval flag is true; it returns the stored
approval flag and token exactly on the branch where the stored expiry is
strictly after the current time, and in particular an approved = true
answer forces a strictly future expiry. -/
theorem claim_C4_check_trust_expiry_gate (db : AuthDB) (d : String) (now : Int) :
    (db.devices.find? (fun r => r.device_id == d) = none →
      check_device_approval db d now = (false, none))
    ∧ (∀ r, db.devices.find? (fun r => r.device_id == d) = some r →
        (r.token_expiry = none → check_device_approval db d now = (false, none))
        ∧ (∀ e, r.token_expiry = some e → e ≤ now →
            check_device_approval db d now = (false, none))
        ∧ (∀ e, r.token_expiry = some e → now < e →
            check_device_approval db d now = (r.is_approved, r.session_token)))
    ∧ ((check_device_approval db d now).1 = true →
        ∃ r e, db.devices.find? (fun r => r.device_id == d) = some r ∧
          r.token_expiry = some e ∧ now < e ∧ r.is_approved = true) := by
  refine ⟨?_, ?_, ?_⟩
  · intro hnone
    simp [check_device_approval, hnone]
  · intro r hr
    refine ⟨?_, ?_, ?_⟩
    · intro hexp
      simp [check_device_approval, hr, hexp]
    · intro e hexp hle
      have : ¬ now < e := by omega
      simp [check_device_approval, hr, hexp, this]
    · intro e hexp hlt
      simp [check_device_approval, hr, hexp, hlt]
  · intro htrue
    rcases hfind : db.devices.find? (fun r => r.device_id == d) with _ | r
    · simp [check_device_approval, hfind] at htrue
    · rcases hexp : r.token_expiry with _ | e
      · simp [check_device_approval, hfind, hexp] at htrue
      · by_cases hlt : now < e
        · have hres : check_device_approval db d now =
              (r.is_approved, r.session_token) := by
            simp [check_device_approval, hfind, hexp, hlt]
          rw [hres] at htrue
          exact ⟨r, e, hfind, hexp, hlt, htrue⟩
        · simp [check_device_approval, hfind, hexp, hlt] at htrue

/-- Witness for C4: a device record that is approved but whose token
expired at time 50 is rejected at time 100, while the same record is
accepted (flag and token returned) at time 10. -/
theorem claim_C4_check_trust_expiry_gate_witness :
    check_device_approval
      ⟨[⟨1, "dev", "Device ip", "ip", "ua", 0, 0, true, some "tok", some 50⟩], [], 2⟩
      "dev" 100 = (false, none)
    ∧ check_device_approval
      ⟨[⟨1, "dev", "Device ip", "ip", "ua", 0, 0, true, some "tok", some 50⟩], [], 2⟩
      "dev" 10 = (true, some "tok") := by
  constructor
  · exact (((claim_C4_check_trust_expiry_gate
      ⟨[⟨1, "dev", "Device ip", "ip", "ua", 0, 0, true, some "tok", some 50⟩], [], 2⟩
      "dev" 100).2.1
      ⟨1, "dev", "Device ip", "ip", "ua", 0, 0, true, some "tok", some 50⟩
      (by rfl)).2.1 50 rfl (by omega))
  · exact (((claim_C4_check_trust_expiry_gate
      ⟨[⟨1, "dev", "Device ip", "ip", "ua", 0, 0, true, some "tok", some 50⟩], [], 2⟩
      "dev" 10).2.1
      ⟨1, "dev", "Device ip", "ip", "ua", 0, 0, true, some "tok", some 50⟩
      (by rfl)).2.2 50 rfl (by omega))

theorem save_devices_update (db : AuthDB) (device_id : String) (ci : ClientInfo)
    (approved : Bool) (now : Int) (tok : String) (r0 : DeviceRec)
    (hf : db.devices.find? (fun r => r.device_id == device_id) = some r0) :
    (save_device_session db device_id ci approved now tok).1.devices =
      db.devices.map (fun r =>
        if r.device_id == device_id then
          { r with last_login := now, session_token := some tok,
                   token_expiry := some (now + thirty_days),
                   ip_address := ci.ip_address, user_agent := ci.user_agent }
        else r) := by
  simp [save_device_session, hf]

theorem save_devices_insert (db : AuthDB) (device_id : String) (ci : ClientInfo)
    (approved : Bool) (now : Int) (tok : String)
    (hf : db.devices.find? (fun r => r.device_id == device_id) = none) :
    (save_device_session db device_id ci approved now tok).1.devices =
      db.devices ++
        [⟨db.nextId, device_id, "Device " ++ ci.ip_address.take 15,
          ci.ip_address, ci.user_agent, now, now, approved, some tok,
          some (now + thirty_days)⟩] := by
  simp [save_device_session, hf]

theorem device_count_save (db : AuthDB) (device_id : String) (ci : ClientInfo)
    (approved : Bool) (now : Int) (tok : String) (d : String) :
    device_count (save_device_session db device_id ci approved now tok).1 d =
      if (db.devices.find? (fun r => r.device_id == device_id)).isSome then
        device_count db d
      else
        device_count db d + (if device_id == d then 1 else 0) := by
  rcases hf : db.devices.find? (fun r => r.device_id == device_id) with _ | r0
  · rw [if_neg (by simp [hf])]
    rw [device_count_eq_countP,
        save_devices_insert db device_id ci approved now tok hf,
        List.countP_append, device_count_eq_countP]
    congr 1
    by_cases hd : device_id = d
    · simp [List.countP, List.countP.go, hd]
    · have hbd : (device_id == d) = false := by simp [hd]
      simp [List.countP, List.countP.go, hbd]
  · rw [if_pos (by simp [hf])]
    rw [device_count_eq_countP,
        save_devices_update db device_id ci approved now tok r0 hf,
        device_count_eq_countP]
    apply countP_map_of_preserved
    intro a
    by_cases ha : a.device_id = device_id <;> simp [ha]

theorem device_count_eq_zero_of_find?_none (db : AuthDB) (d : String)
    (hf : db.devices.find? (fun r => r.device_id == d) = none) :
    device_count db d = 0 := by
  rw [device_count_eq_countP]
  exact List.countP_eq_zero.mpr (List.find?_eq_none.mp hf)

theorem one_le_device_count_of_find?_some (db : AuthDB) (d : String)
    (r0 : DeviceRec)
    (hf : db.devices.find? (fun r => r.device_id == d) = some r0) :
    1 ≤ device_count db d := by
  rw [device_count_eq_countP]
  have hp := List.find?_some hf
  have hpos : 0 < db.devices.countP (fun r => r.device_id == d) :=
    List.countP_pos_iff.mpr ⟨r0, List.mem_of_find?_eq_some hf, hp⟩
  omega

theorem device_count_save_self_eq_one (db : AuthDB) (device_id : String)
    (ci : ClientInfo) (approved : Bool) (now : Int) (tok : String)
    (hInv : ∀ d, device_count db d ≤ 1) :
    device_count (save_device_session db device_id ci approved now tok).1
      device_id = 1 := by
  rw [device_count_save]
  rcases hf : db.devices.find? (fun r => r.device_id == device_id) with _ | r0
  · rw [if_neg (by simp [hf]),
        device_count_eq_zero_of_find?_none db device_id hf]
    simp
  · rw [if_pos (by simp [hf])]
    exact le_antisymm (hInv device_id)
      (one_le_device_count_of_find?_some db device_id r0 hf)

theorem device_count_save_le_one (db : AuthDB) (device_id : String)
    (ci : ClientInfo) (approved : Bool) (now : Int) (tok : String)
    (hInv : ∀ d, device_count db d ≤ 1) (d : String) :
    device_count (save_device_session db device_id ci approved now tok).1 d
      ≤ 1 := by
  rw [device_count_save]
  rcases hf : db.devices.find? (fun r => r.device_id == device_id) with _ | r0
  · rw [if_neg (by simp [hf])]
    by_cases hd : device_id = d
    · subst hd
      rw [device_count_eq_zero_of_find?_none db device_id hf]
      simp
    · have hbd : (device_id == d) = false := by simp [hd]
      simp only [hbd, cond_false, if_false, Bool.false_eq_true]
      have := hInv d
      omega
  · rw [if_pos (by simp [hf])]
    exact hInv d

/-- C9: `save_device_session` is an upsert, so it preserves the
"at most one `authorized_devices` row per device identifier" invariant,
two successive calls for the same identifier leave exactly one row keyed
by it, and the other device operations (`approve_device`,
`revoke_device`, `delete_device`) preserve the invariant as well. -/
theorem claim_C9_upsert_unique_per_device (db : AuthDB) (device_id : String)
    (ci1 ci2 : ClientInfo) (a1 a2 : Bool) (n1 n2 : Int) (t1 t2 : String)
    (hInv : ∀ d, device_count db d ≤ 1) :
    (∀ d, device_count (save_device_session db device_id ci1 a1 n1 t1).1 d ≤ 1)
    ∧ device_count (save_device_session db device_id ci1 a1 n1 t1).1
        device_id = 1
    ∧ device_count
        (save_device_session (save_device_session db device_id ci1 a1 n1 t1).1
          device_id ci2 a2 n2 t2).1 device_id = 1
    ∧ (∀ d2 d, device_count (approve_device db d2) d = device_count db d)
    ∧ (∀ d2 d, device_count (revoke_device db d2) d = device_count db d)
    ∧ (∀ d2 d, device_count (delete_device db d2) d ≤ device_count db d) := by
  refine ⟨fun d => device_count_save_le_one db device_id ci1 a1 n1 t1 hInv d,
    device_count_save_self_eq_one db device_id ci1 a1 n1 t1 hInv,
    device_count_save_self_eq_one _ device_id ci2 a2 n2 t2
      (fun d => device_count_save_le_one db device_id ci1 a1 n1 t1 hInv d),
    ?_, ?_, ?_⟩
  · intro d2 d
    have hdev : (approve_device db d2).devices =
        db.devices.map (fun r =>
          if r.device_id == d2 then { r with is_approved := true } else r) := rfl
    rw [device_count_eq_countP, device_count_eq_countP, hdev]
    exact countP_map_of_preserved _ _ _
      (fun a => by by_cases ha : a.device_id = d2 <;> simp [ha])
  · intro d2 d
    have hdev : (revoke_device db d2).devices =
        db.devices.map (fun r =>
          if r.device_id == d2 then { r with is_approved := false } else r) := rfl
    rw [device_count_eq_countP, device_count_eq_countP, hdev]
    exact countP_map_of_preserved _ _ _
      (fun a => by by_cases ha : a.device_id = d2 <;> simp [ha])
  · intro d2 d
    have hdev : (delete_device db d2).devices =
        db.devices.filter (fun r => !(r.device_id == d2)) := rfl
    rw [device_count_eq_countP, device_count_eq_countP, hdev]
    exact (List.filter_sublist _).countP_le _

/-- Witness for C9: on a database already holding a record for "dev",
two successive saves leave exactly one "dev" record. -/
theorem claim_C9_upsert_unique_per_device_witness :
    device_count
      (save_device_session
        (save_device_session
          ⟨[⟨1, "dev", "Device ip", "ip", "ua", 0, 0, false, some "t0", some 9⟩],
           [], 2⟩
          "dev" ⟨"ip1", "ua1"⟩ true 10 "t1").1
        "dev" ⟨"ip2", "ua2"⟩ true 20 "t2").1 "dev" = 1 := by
  exact (claim_C9_upsert_unique_per_device
    ⟨[⟨1, "dev", "Device ip", "ip", "ua", 0, 0, false, some "t0", some 9⟩],
     [], 2⟩
    "dev" ⟨"ip1", "ua1"⟩ ⟨"ip2", "ua2"⟩ true true 10 20 "t1" "t2"
    (by intro d
        rw [device_count_eq_countP]
        exact List.countP_le_length _)).2.2.1

/-- C8: on the update branch of `save_device_session` (a record for the
identifier already exists), only `last_login`, `session_token`,
`token_expiry`, `ip_address` and `user_agent` are refreshed: every row
keeps its `id`, `device_id`, `device_name`, `first_login` and
`is_approved` — the latter regardless of the `approved` argument — while
the rows matching the identifier get the new timestamp, token, expiry and
client descriptor. -/
theorem claim_C8_update_branch_frame (db : AuthDB) (device_id : String)
    (ci : ClientInfo) (approved : Bool) (now : Int) (tok : String)
    (h : (db.devices.find? (fun r => r.device_id == device_id)).isSome) :
    ((save_device_session db device_id ci approved now tok).1.devices.length
      = db.devices.length)
    ∧ (∀ i : Nat,
        ((save_device_session db device_id ci approved now tok).1.devices[i]?.map
          (fun r => (r.id, r.device_id, r.device_name, r.first_login,
                     r.is_approved)))
        = (db.devices[i]?.map
          (fun r => (r.id, r.device_id, r.device_name, r.first_login,
                     r.is_approved))))
    ∧ (∀ i : Nat, ∀ r, db.devices[i]? = some r → r.device_id = device_id →
        ((save_device_session db device_id ci approved now tok).1.devices[i]?.map
          (fun r => (r.last_login, r.session_token, r.token_expiry,
                     r.ip_address, r.user_agent)))
        = some (now, some tok, some (now + thirty_days),
                ci.ip_address, ci.user_agent)) := by
  rcases Option.isSome_iff_exists.mp h with ⟨r0, hf⟩
  have hdev := save_devices_update db device_id ci approved now tok r0 hf
  refine ⟨by rw [hdev, List.length_map], ?_, ?_⟩
  · intro i
    rw [hdev, List.getElem?_map]
    rcases hx : db.devices[i]? with _ | a
    · rfl
    · by_cases ha : a.device_id = device_id <;> simp [ha]
  · intro i r hi hr
    rw [hdev, List.getElem?_map, hi]
    simp [hr]

/-- Witness for C8: saving with `approved = false` over an existing
approved record keeps `is_approved = true`, `device_name`, `first_login`
and `id` intact while the token fields are refreshed. -/
theorem claim_C8_update_branch_frame_witness :
    ((save_device_session
        ⟨[⟨1, "dev", "Device ip", "ip", "ua", 5, 6, true, some "t0", some 7⟩],
         [], 2⟩
        "dev" ⟨"ip1", "ua1"⟩ false 100 "t1").1.devices[0]?.map
      (fun r => (r.id, r.device_id, r.device_name, r.first_login,
                 r.is_approved)))
      = some (1, "dev", "Device ip", 5, true)
    ∧ ((save_device_session
        ⟨[⟨1, "dev", "Device ip", "ip", "ua", 5, 6, true, some "t0", some 7⟩],
         [], 2⟩
        "dev" ⟨"ip1", "ua1"⟩ false 100 "t1").1.devices[0]?.map
      (fun r => (r.last_login, r.session_token, r.token_expiry,
                 r.ip_address, r.user_agent)))
      = some (100, some "t1", some (100 + thirty_days), "ip1", "ua1") := by
  constructor
  · exact ((claim_C8_update_branch_frame
      ⟨[⟨1, "dev", "Device ip", "ip", "ua", 5, 6, true, some "t0", some 7⟩],
       [], 2⟩
      "dev" ⟨"ip1", "ua1"⟩ false 100 "t1" (by rfl)).2.1 0).trans (by rfl)
  · exact (claim_C8_update_branch_frame
      ⟨[⟨1, "dev", "Device ip", "ip", "ua", 5, 6, true, some "t0", some 7⟩],
       [], 2⟩
      "dev" ⟨"ip1", "ua1"⟩ false 100 "t1" (by rfl)).2.2 0
      ⟨1, "dev", "Device ip", "ip", "ua", 5, 6, true, some "t0", some 7⟩
      (by rfl) (by rfl)

/-- C5, counterexample: `delete_device` deletes the `login_attempts` rows
of the deleted identifier outright, so — against the claim — they do NOT
persist in the table with a null-resolving device-name join.  Concretely,
on a database holding device "dev" and one LoginAttempt for "dev",
deletion leaves the attempts table empty although it was non-empty
before. -/
theorem claim_C5_attempt_rows_do_not_persist :
    (delete_device
      ⟨[⟨1, "dev", "Device ip", "ip", "ua", 0, 0, true, some "t", some 9⟩],
       [⟨"dev", "ip", 3, "Login Success", "ua"⟩], 2⟩ "dev").attempts = []
    ∧ (⟨[⟨1, "dev", "Device ip", "ip", "ua", 0, 0, true, some "t", some 9⟩],
        [⟨"dev", "ip", 3, "Login Success", "ua"⟩], 2⟩ : AuthDB).attempts
        ≠ [] := by
  exact ⟨rfl, by decide⟩

/-- C5, amended: deleting a device by its identifier removes the device
row AND every `login_attempts` row carrying that identifier (the rows do
not persist with a null device-name join), attempts of other identifiers
are kept unchanged, and consequently no row of the login-history query
references the deleted identifier. -/
theorem claim_C5_delete_device_purges_attempts (db : AuthDB) (d : String) :
    ((delete_device db d).attempts
      = db.attempts.filter (fun a => !(a.device_id == d)))
    ∧ ((delete_device db d).attempts.filter (fun a => a.device_id == d)) = []
    ∧ ((delete_device db d).devices.filter (fun r => r.device_id == d)) = []
    ∧ (∀ row ∈ get_login_history (delete_device db d), row.device_id ≠ d) := by
  refine ⟨rfl, ?_, ?_, ?_⟩
  · refine List.filter_eq_nil_iff.mpr ?_
    intro a ha
    have hmem := List.of_mem_filter
      (p := fun (a : AttemptRow) => !(a.device_id == d)) ha
    simp at hmem ⊢
    exact hmem
  · refine List.filter_eq_nil_iff.mpr ?_
    intro r hr
    have hmem := List.of_mem_filter
      (p := fun (r : DeviceRec) => !(r.device_id == d)) hr
    simp at hmem ⊢
    exact hmem
  · intro row hrow
    have hrow2 := List.mem_of_mem_take hrow
    rcases List.mem_map.mp hrow2 with ⟨a, hamem, harow⟩
    have hattempts : a ∈ (delete_device db d).attempts :=
      (List.mem_insertionSort
        (fun (a b : AttemptRow) => a.timestamp ≥ b.timestamp)).mp hamem
    have hane := List.of_mem_filter
      (p := fun (a : AttemptRow) => !(a.device_id == d)) hattempts
    have : row.device_id = a.device_id := by rw [← harow]
    rw [this]
    simp at hane
    exact hane

/-- Witness for C5's amended theorem: with device "dev" deleted, the one
surviving history row (an attempt from identifier "other") does not
reference "dev". -/
theorem claim_C5_delete_device_purges_attempts_witness :
    (⟨5, "other", "ip2", "Login Failed - Wrong Password", none⟩ :
      HistoryRow).device_id ≠ "dev" := by
  exact (claim_C5_delete_device_purges_attempts
    ⟨[⟨1, "dev", "Device ip", "ip", "ua", 0, 0, true, some "t", some 9⟩],
     [⟨"dev", "ip", 3, "Login Success", "ua"⟩,
      ⟨"other", "ip2", 5, "Login Failed - Wrong Password", "ua2"⟩], 2⟩
    "dev").2.2.2
    ⟨5, "other", "ip2", "Login Failed - Wrong Password", none⟩ (by decide)

theorem efficiency_history_map_date (tasks : List DailyTask) :
    (get_efficiency_history tasks).map (fun r => r.date) =
      ((tasks.map (fun t => t.date)).dedup).insertionSort
        (fun a b => a ≥ b) := by
  rw [get_efficiency_history, List.map_map]
  exact (List.map_congr_left (fun d _ => rfl)).trans (List.map_id _)

/-- C6: `get_efficiency_history` emits one row per distinct date that has
at least one task (dates are strictly descending, hence duplicate-free,
and a date appears iff some task carries it), and each row's counts and
percentage are those of its date's task group: `total` and `completed`
are the group sizes, `total ≥ 1` (so no division-by-zero row can appear)
and the percentage is `round(completed / total * 100, 1)` in tenths. -/
theorem claim_C6_efficiency_history_per_date (tasks : List DailyTask) :
    ((get_efficiency_history tasks).map (fun r => r.date)).Pairwise (· > ·)
    ∧ (∀ d : Int,
        (∃ r ∈ get_efficiency_history tasks, r.date = d) ↔
          ∃ t ∈ tasks, t.date = d)
    ∧ (∀ r ∈ get_efficiency_history tasks,
        r.total_tasks = (tasks.filter (fun t => t.date == r.date)).length
        ∧ 1 ≤ r.total_tasks
        ∧ r.completed_tasks =
            ((tasks.filter (fun t => t.date == r.date)).filter
              (fun t => t.is_completed)).length
        ∧ r.efficiency_tenths =
            roundTenths (r.completed_tasks * 1000) r.total_tasks) := by
  refine ⟨?_, ?_, ?_⟩
  · rw [efficiency_history_map_date]
    have hsorted : ((tasks.map (fun t => t.date)).dedup.insertionSort
        (fun a b => a ≥ b)).Pairwise (fun a b => a ≥ b) :=
      List.sorted_insertionSort _ _
    have hnodup : ((tasks.map (fun t => t.date)).dedup.insertionSort
        (fun a b => a ≥ b)).Nodup :=
      (List.perm_insertionSort _ _).nodup_iff.mpr
        (List.nodup_dedup _)
    exact (hsorted.and hnodup).imp
      (fun hab => lt_of_le_of_ne hab.1 (Ne.symm hab.2))
  · intro d
    constructor
    · rintro ⟨r, hr, hrd⟩
      have : r.date ∈ (get_efficiency_history tasks).map (fun r => r.date) :=
        List.mem_map.mpr ⟨r, hr, rfl⟩
      rw [efficiency_history_map_date] at this
      have hd : d ∈ (tasks.map (fun t => t.date)).dedup := by
        rw [← hrd]
        exact (List.mem_insertionSort _).mp this
      rcases List.mem_map.mp (List.mem_dedup.mp hd) with ⟨t, ht, htd⟩
      exact ⟨t, ht, htd⟩
    · rintro ⟨t, ht, htd⟩
      have hd : d ∈ ((tasks.map (fun t => t.date)).dedup).insertionSort
          (fun a b => a ≥ b) :=
        (List.mem_insertionSort _).mpr
          (List.mem_dedup.mpr (List.mem_map.mpr ⟨t, ht, htd⟩))
      rcases List.mem_map.mp
        ((efficiency_history_map_date tasks) ▸ hd :
          d ∈ (get_efficiency_history tasks).map (fun r => r.date)) with
        ⟨r, hr, hrd⟩
      exact ⟨r, hr, hrd⟩
  · intro r hr
    rcases List.mem_map.mp hr with ⟨d, hd, hdr⟩
    have hdd : d ∈ (tasks.map (fun t => t.date)).dedup :=
      (List.mem_insertionSort _).mp hd
    rcases List.mem_map.mp (List.mem_dedup.mp hdd) with ⟨t, ht, htd⟩
    subst hdr
    refine ⟨rfl, ?_, ?_, rfl⟩
    · have htmem : t ∈ tasks.filter (fun u => u.date == d) :=
        List.mem_filter.mpr ⟨ht, by simp [htd]⟩
      exact List.length_pos.mpr (List.ne_nil_of_mem htmem)
    · rfl

/-- Witness for C6: on three concrete tasks (two on date 10, one of them
completed, one completed task on date 9), the date-10 row of the history
is ⟨10, 2, 1, 500⟩ and its counts match the filters of the table. -/
theorem claim_C6_efficiency_history_per_date_witness :
    (⟨10, 2, 1, 500⟩ : EffRow).total_tasks =
      (([⟨1, "a", 10, true⟩, ⟨2, "b", 10, false⟩, ⟨3, "c", 9, true⟩] :
        List DailyTask).filter (fun t => t.date == (10 : Int))).length
    ∧ 1 ≤ (⟨10, 2, 1, 500⟩ : EffRow).total_tasks := by
  have h := (claim_C6_efficiency_history_per_date
    [⟨1, "a", 10, true⟩, ⟨2, "b", 10, false⟩, ⟨3, "c", 9, true⟩]).2.2
    ⟨10, 2, 1, 500⟩ (by decide)
  exact ⟨h.1, h.2.1⟩

theorem sum_map_indicator {b : Type} [DecidableEq b] (K : List b)
    (q : b → Bool) :
    (K.map (fun x => if q x then 1 else 0)).sum = K.countP q := by
  induction K with
  | nil => rfl
  | cons x K ih =>
      by_cases hx : q x
      · simp [List.countP_cons, hx, ih]
        omega
      · simp [List.countP_cons, hx, ih]

theorem sum_filter_group_lengths {a b : Type} [DecidableEq b]
    (key : a → b) (p : a → Bool) :
    ∀ (l : List a) (K : List b), K.Nodup →
      (∀ x, x ∈ l → p x = true → key x ∈ K) →
      (K.map (fun g => (l.filter (fun x => key x == g && p x)).length)).sum
        = (l.filter p).length := by
  intro l
  induction l with
  | nil => intro K hN hC; simp
  | cons a0 l ih =>
      intro K hN hC
      by_cases hp : p a0 = true
      · have hmem : key a0 ∈ K := hC a0 (List.mem_cons_self a0 l) hp
        have hstep : ∀ g, g ∈ K →
            ((a0 :: l).filter (fun x => key x == g && p x)).length
              = (l.filter (fun x => key x == g && p x)).length
                + (if key a0 == g then 1 else 0) := by
          intro g _
          by_cases hk : (key a0 == g) = true
          · simp [List.filter_cons, hk, hp]
          · simp [List.filter_cons, hk, hp]
        rw [List.map_congr_left hstep, List.sum_map_add,
            ih K hN (fun x hx hpx => hC x (List.mem_cons_of_mem a0 hx) hpx),
            sum_map_indicator]
        have hcount : K.countP (fun g => key a0 == g) = 1 := by
          have hone := List.count_eq_one_of_mem hN hmem
          rw [List.count] at hone
          rw [← hone]
          exact List.countP_congr
            (fun g _ => by simp only [beq_iff_eq]; exact eq_comm)
        rw [hcount]
        simp [List.filter_cons, hp]
      · have hfl : (a0 :: l).filter p = l.filter p := by
          simp [List.filter_cons, hp]
        have hstep : ∀ g, g ∈ K →
            ((a0 :: l).filter (fun x => key x == g && p x)).length
              = (l.filter (fun x => key x == g && p x)).length := by
          intro g _
          simp [List.filter_cons, hp]
        rw [List.map_congr_left hstep, hfl,
            ih K hN (fun x hx hpx => hC x (List.mem_cons_of_mem a0 hx) hpx)]

theorem stats_map_phase (rows : List SyllabusRow) :
    (get_completion_stats rows).map (fun s => s.phase)
      = (rows.map (fun r => r.phase)).dedup := by
  rw [get_completion_stats, List.map_map]
  exact (List.map_congr_left (fun p _ => rfl)).trans (List.map_id _)

theorem stats_total_sum (rows : List SyllabusRow) :
    ((get_completion_stats rows).map (fun s => s.total)).sum = rows.length := by
  rw [get_completion_stats, List.map_map]
  have h := sum_filter_group_lengths (fun r : SyllabusRow => r.phase)
    (fun _ => true) rows ((rows.map (fun r => r.phase)).dedup)
    (List.nodup_dedup _)
    (fun x hx _ => List.mem_dedup.mpr (List.mem_map.mpr ⟨x, hx, rfl⟩))
  simp only [Bool.and_true] at h
  simp only [List.filter_true] at h
  exact h

theorem stats_completed_sum (rows : List SyllabusRow) :
    ((get_completion_stats rows).map (fun s => s.completed)).sum
      = (rows.filter (fun r => r.status == "Completed")).length := by
  rw [get_completion_stats, List.map_map]
  exact sum_filter_group_lengths (fun r : SyllabusRow => r.phase)
    (fun r => r.status == "Completed") rows _
    (List.nodup_dedup _)
    (fun x hx _ => List.mem_dedup.mpr (List.mem_map.mpr ⟨x, hx, rfl⟩))

theorem phase_sums_zero_of_not_mem (stats : List PhaseStat) (p : String)
    (hp : p ∉ stats.map (fun s => s.phase)) :
    phase_completed_sum stats p = 0 ∧ phase_total_sum stats p = 0 := by
  have hfil : stats.filter (fun s => s.phase == p) = [] :=
    List.filter_eq_nil_iff.mpr (fun s hs => by
      simp only [beq_iff_eq]
      intro hsp
      exact hp (List.mem_map.mpr ⟨s, hs, hsp⟩))
  constructor
  · simp [phase_completed_sum, hfil]
  · simp [phase_total_sum, hfil]

theorem seeded_map_phase (f : Nat → String) :
    (seeded_with_statuses f).map (fun r => r.phase)
      = syllabus_data.map (fun t => t.1) := rfl

theorem phase_key_not_in_catalog :
    "A" ∉ syllabus_data.map (fun t => t.1)
    ∧ "B" ∉ syllabus_data.map (fun t => t.1)
    ∧ "C" ∉ syllabus_data.map (fun t => t.1)
    ∧ "D" ∉ syllabus_data.map (fun t => t.1) := by decide

/-- C3: the phase keys 'A'..'D' probed by `calculate_projected_score`
match no phase label of the seeded catalog, so on any table obtained from
the seeded syllabus by status edits — however many items are Completed —
every 0.7-threshold tier falls through and the result is the lowest-tier
label "Projected: 20-50 Marks", paired with the overall completion
percentage `completed / 35 * 100`. -/
theorem claim_C3_projection_always_lowest_tier (f : Nat → String) :
    calculate_projected_score (get_completion_stats (seeded_with_statuses f))
      = ("Projected: 20-50 Marks",
        ((((seeded_with_statuses f).filter
            (fun r => r.status == "Completed")).length : Rat) / 35) * 100) := by
  have hnm : ∀ p : String, p ∉ syllabus_data.map (fun t => t.1) →
      p ∉ (get_completion_stats (seeded_with_statuses f)).map
        (fun s => s.phase) := by
    intro p hp hmem
    rw [stats_map_phase, seeded_map_phase] at hmem
    exact hp (List.mem_dedup.mp hmem)
  have hA := phase_sums_zero_of_not_mem _ "A"
    (hnm "A" phase_key_not_in_catalog.1)
  have hB := phase_sums_zero_of_not_mem _ "B"
    (hnm "B" phase_key_not_in_catalog.2.1)
  have hC := phase_sums_zero_of_not_mem _ "C"
    (hnm "C" phase_key_not_in_catalog.2.2.1)
  have hD := phase_sums_zero_of_not_mem _ "D"
    (hnm "D" phase_key_not_in_catalog.2.2.2)
  have hlen : (seeded_with_statuses f).length = 35 := by
    simp [seeded_with_statuses]
    rfl
  rw [calculate_projected_score]
  rw [stats_total_sum, stats_completed_sum, hlen]
  rw [hA.1, hA.2, hB.1, hB.2, hC.1, hC.2, hD.1, hD.2]
  norm_num

theorem effectiveGate_eq_v2 : effectiveGate = GateVersion.v2 := rfl

/-- C2: the module defines `check_password` twice, so the second
definition shadows the first at the gate call site.  The effective gate's
`password_entered` sets the success flag exactly when the hash of the
entered password equals the configured hash (or, when reading the secret
raises, when the raw entered password equals "jee2025"); neither it nor
the effective gate body touches the auth database or calls
`check_device_approval`, `save_device_session` or `log_login_attempt` on
any path, and the body grants access exactly on the `password_correct`
session flag. -/
theorem claim_C2_second_definition_shadows_first :
    resolveGate "check_password" = some GateVersion.v2
    ∧ effectiveGate = GateVersion.v2
    ∧ (∀ (hash : String → String) (secrets : Option String)
        (device_id : String) (ci : ClientInfo) (now : Int) (tok : String)
        (ss : SessionState) (db : AuthDB),
        ((run_password_entered effectiveGate hash secrets device_id ci now tok
            ss db).1.password_correct = some true ↔
          (match secrets with
           | some correct_hash => hash (ss.password.getD "") = correct_hash
           | none => ss.password.getD "" = "jee2025"))
        ∧ (run_password_entered effectiveGate hash secrets device_id ci now tok
            ss db).2.1 = db
        ∧ (run_password_entered effectiveGate hash secrets device_id ci now tok
            ss db).2.2 = [])
    ∧ (∀ (fresh : String) (ci : ClientInfo) (now : Int) (ss : SessionState)
        (db : AuthDB),
        ((run_gate_body effectiveGate fresh ci now ss db).1 =
          ss.password_correct.getD false)
        ∧ (run_gate_body effectiveGate fresh ci now ss db).2.2.1 = db
        ∧ (run_gate_body effectiveGate fresh ci now ss db).2.2.2 = []) := by
  refine ⟨rfl, rfl, ?_, ?_⟩
  · intro hash secrets device_id ci now tok ss db
    rcases secrets with _ | ch
    · by_cases h : ss.password.getD "" = "jee2025" <;>
        simp [run_password_entered, effectiveGate_eq_v2, password_entered_v2, h]
    · by_cases h : hash (ss.password.getD "") = ch <;>
        simp [run_password_entered, effectiveGate_eq_v2, password_entered_v2, h]
  · intro fresh ci now ss db
    by_cases h : ss.password_correct.getD false <;>
      simp [run_gate_body, effectiveGate_eq_v2, check_password_v2_body, h]

/-- C1, counterexample: with a configured hash and an entered password in
the session, one call of the EFFECTIVE gate's verify step (the second,
shadowing `check_password`) appends no LoginAttempt row at all — not
exactly one, as the claim states. -/
theorem claim_C1_effective_verify_appends_no_row :
    ¬ ((run_password_entered effectiveGate (fun s => s) (some "h") "dev"
        ⟨"ip", "ua"⟩ 0 "tok"
        ⟨none, none, none, none, none, some "pw"⟩
        ⟨[], [], 1⟩).2.1.attempts.length
      = (⟨[], [], 1⟩ : AuthDB).attempts.length + 1) := by decide

theorem save_device_session_attempts_unchanged (db : AuthDB)
    (device_id : String) (ci : ClientInfo) (approved : Bool) (now : Int)
    (tok : String) :
    (save_device_session db device_id ci approved now tok).1.attempts
      = db.attempts := by
  rcases hf : db.devices.find? (fun r => r.device_id == device_id) with _ | r0
  · simp [save_device_session, hf]
  · simp [save_device_session, hf]

/-- C1, amended: the logging behaviour the claim describes belongs to the
FIRST `check_password` definition: its `password_entered` appends exactly
one row labelled "Login Success" or "Login Failed - Wrong Password"
according to the hash comparison, and its body appends exactly one
"Auto-login Success" row exactly on the trusted-device auto-login path
and none otherwise.  The EFFECTIVE gate (the second definition, which
shadows the first at the call site) appends no LoginAttempt row on any
path. -/
theorem claim_C1_exactly_one_row_in_first_definition_only :
    (∀ (hash : String → String) (secrets : Option String)
        (device_id : String) (ci : ClientInfo) (now : Int) (tok : String)
        (ss : SessionState) (db : AuthDB),
      (password_entered_v1 hash secrets device_id ci now tok ss db).2.1.attempts
        = db.attempts ++
          [⟨device_id, ci.ip_address, now,
            (if hash (ss.password.getD "") = correct_hash_v1 hash secrets
             then "Login Success" else "Login Failed - Wrong Password"),
            ci.user_agent⟩])
    ∧ (∀ (fresh : String) (ci : ClientInfo) (now : Int) (ss : SessionState)
        (db : AuthDB),
      (check_password_v1_body fresh ci now ss db).2.2.1.attempts
        = if ss.authenticated.getD false then db.attempts
          else if (check_device_approval db (ss.device_id.getD fresh) now).1
              && tokenTruthy
                (check_device_approval db (ss.device_id.getD fresh) now).2 then
            db.attempts ++
              [⟨ss.device_id.getD fresh, ci.ip_address, now,
                "Auto-login Success", ci.user_agent⟩]
          else db.attempts)
    ∧ (∀ (hash : String → String) (secrets : Option String)
        (device_id : String) (ci : ClientInfo) (now : Int) (tok : String)
        (ss : SessionState) (db : AuthDB),
      (run_password_entered effectiveGate hash secrets device_id ci now tok
        ss db).2.1.attempts = db.attempts)
    ∧ (∀ (fresh : String) (ci : ClientInfo) (now : Int) (ss : SessionState)
        (db : AuthDB),
      (run_gate_body effectiveGate fresh ci now ss db).2.2.1.attempts
        = db.attempts) := by
  refine ⟨?_, ?_, ?_, ?_⟩
  · intro hash secrets device_id ci now tok ss db
    by_cases h : hash (ss.password.getD "") = correct_hash_v1 hash secrets
    · by_cases hrem : ss.remember_device.getD true <;>
        simp [password_entered_v1, log_login_attempt, h, hrem,
          save_device_session_attempts_unchanged]
    · simp [password_entered_v1, log_login_attempt, h]
  · intro fresh ci now ss db
    by_cases hauth : ss.authenticated.getD false
    · simp [check_password_v1_body, hauth]
    · by_cases happ : ((check_device_approval db (ss.device_id.getD fresh)
          now).1 && tokenTruthy
            (check_device_approval db (ss.device_id.getD fresh) now).2) = true
      · simp [check_password_v1_body, log_login_attempt, hauth, happ]
      · by_cases hpc : ss.password_correct.getD false <;>
          simp [check_password_v1_body, hauth, happ, hpc]
  · intro hash secrets device_id ci now tok ss db
    rcases secrets with _ | ch
    · by_cases h : ss.password.getD "" = "jee2025" <;>
        simp [run_password_entered, effectiveGate_eq_v2, password_entered_v2, h]
    · by_cases h : hash (ss.password.getD "") = ch <;>
        simp [run_password_entered, effectiveGate_eq_v2, password_entered_v2, h]
  · intro fresh ci now ss db
    by_cases h : ss.password_correct.getD false <;>
      simp [run_gate_body, effectiveGate_eq_v2, check_password_v2_body, h]

end Tracker
